import Mathlib

/-!
Verification of the face-verification decision pipeline of
src/src/Components/VerifcationComponent.tsx.

The embedding models the decision logic of the component: the gaze
heuristic checkIfLookingAtScreen, the enrollment action captureFace and
the matching action verifyFace, together with the reactive state fields
they read and write.  JavaScript numbers are idealized as exact rational
(landmark geometry, descriptors) and real (euclidean distance, which
takes a square root) arithmetic.  Canvas drawing, webcam acquisition and
model loading are display or network collaborators with no decision
content; they are not modelled, and the canvas context is assumed
available, so the interim canvas-failure early returns never fire.
-/

/-- A 2D pixel-space point as produced by the landmark model. -/
structure Point2D where
  x : ℚ
  y : ℚ
  deriving DecidableEq

/-- The landmark groups of a detected face that checkIfLookingAtScreen
reads: the nose, left-eye and right-eye point sequences of a face-api
FaceLandmarks68 object (9, 6 and 6 points respectively in a well formed
detection). -/
structure FaceLandmarks68 where
  nose : List Point2D
  leftEye : List Point2D
  rightEye : List Point2D
  deriving DecidableEq

/-- Accessor mirroring landmarks.getNose(). -/
def FaceLandmarks68.getNose (lm : FaceLandmarks68) : List Point2D := lm.nose

/-- Accessor mirroring landmarks.getLeftEye(). -/
def FaceLandmarks68.getLeftEye (lm : FaceLandmarks68) : List Point2D := lm.leftEye

/-- Accessor mirroring landmarks.getRightEye(). -/
def FaceLandmarks68.getRightEye (lm : FaceLandmarks68) : List Point2D := lm.rightEye

/-- A landmark set shaped like a real FaceLandmarks68 object: 9 nose
points and 6 points per eye, so that nose index 3 and the eye centroids
are meaningful. -/
def WellFormed (lm : FaceLandmarks68) : Prop :=
  lm.nose.length = 9 ∧ lm.leftEye.length = 6 ∧ lm.rightEye.length = 6

/-- face-api getCenterPoint: the centroid (mean of x, mean of y) of a
point sequence. -/
def getCenterPoint (pts : List Point2D) : Point2D :=
  ⟨(pts.map Point2D.x).sum / (pts.length : ℚ),
   (pts.map Point2D.y).sum / (pts.length : ℚ)⟩

/-- The gaze heuristic (source lines 83-109): eye-line levelness and
nose centering relative to the eye span.  nose index 3 is the nose-tip
reference; the List.getD default is only reached on ill formed landmark
sets, which the source never produces. -/
def checkIfLookingAtScreen (landmarks : FaceLandmarks68) : Bool :=
  let nose := landmarks.getNose
  let leftEye := landmarks.getLeftEye
  let rightEye := landmarks.getRightEye
  let nosePoint := nose.getD 3 ⟨0, 0⟩
  let leftEyeCenter := getCenterPoint leftEye
  let rightEyeCenter := getCenterPoint rightEye
  let eyeLine : Point2D :=
    ⟨rightEyeCenter.x - leftEyeCenter.x, rightEyeCenter.y - leftEyeCenter.y⟩
  let eyeYDifference := |eyeLine.y|
  let eyeXDifference := |eyeLine.x|
  let noseXCenter := (leftEyeCenter.x + rightEyeCenter.x) / 2
  let noseOffset := |nosePoint.x - noseXCenter|
  let isEyesLevel : Bool := decide (eyeYDifference < eyeXDifference * 0.3)
  let isNoseCentered : Bool := decide (noseOffset < eyeXDifference * 0.4)
  isEyesLevel && isNoseCentered

/-- One detected face: its landmark set and identity descriptor (a
fixed-length numeric vector, 128 entries in the reference model). -/
structure Detection where
  landmarks : FaceLandmarks68
  descriptor : List ℚ
  deriving DecidableEq

/-- The FaceData record stored by setInitialFace (source lines 7-13):
the enrolled descriptor plus the full detection it came from. -/
structure FaceData where
  descriptor : List ℚ
  detection : Detection
  deriving DecidableEq

/-- The VerificationResult record (source lines 15-20).  distance and
confidence are optional fields, absent on capture-condition failures. -/
structure VerificationResult where
  isMatch : Bool
  message : String
  distance : Option ℝ := none
  confidence : Option ℤ := none

/-- The reactive state of the component that the decision logic reads
and writes.  videoPresent and modelsLoaded stand for videoRef.current
being non-null and the modelsLoaded flag. -/
structure ComponentState where
  modelsLoaded : Bool
  videoPresent : Bool
  initialFace : Option FaceData
  verificationResult : Option VerificationResult
  statusMessage : String
  multipleFacesDetected : Bool
  isLookingAtScreen : Bool

/-- The isEnrolled query of the spec: the UI enables verification
exactly when initialFace is set (the verify button is disabled while
initialFace is null). -/
def ComponentState.isEnrolled (s : ComponentState) : Bool :=
  s.initialFace.isSome

/-- Sum of squared component-wise differences of two descriptors: the
map-reduce inside face-api euclideanDistance.  For the equal-length
descriptors the recognition net produces, the zip is the same as
indexing arr2 by the positions of arr1 (face-api throws on unequal
lengths, a case the component never reaches). -/
def sumSqDiff (a b : List ℚ) : ℚ :=
  ((a.zip b).map (fun p => (p.1 - p.2) ^ 2)).sum

/-- face-api euclideanDistance: the square root of the summed squared
differences (L2 norm of the element-wise difference). -/
noncomputable def euclideanDistance (a b : List ℚ) : ℝ :=
  Real.sqrt ((sumSqDiff a b : ℚ) : ℝ)

/-- Boolean comparison of two reals, mirroring the JavaScript float
comparison distance < threshold. -/
noncomputable def ltBool (x y : ℝ) : Bool :=
  @decide (x < y) (Classical.propDecidable _)

/-- The fixed matching threshold (source line 361). -/
def threshold : ℝ := 0.6

/-- The successful-comparison verdict (source lines 356-372): distance,
strict threshold comparison, unclamped rounded confidence and the
outcome message.  Math.round rounds half toward positive infinity,
exactly the Mathlib round function. -/
noncomputable def comparisonResult (enrolledDescriptor probeDescriptor : List ℚ) :
    VerificationResult :=
  let distance := euclideanDistance enrolledDescriptor probeDescriptor
  let isMatch := ltBool distance threshold
  let confidence := round ((1 - distance) * 100)
  { isMatch := isMatch
    message :=
      if isMatch then
        "Match confirmed! (" ++ toString confidence ++ "% confidence)"
      else
        "Different person detected. (" ++ toString confidence ++ "% similarity)"
    distance := some distance
    confidence := some confidence }

/-- The captureFace action (source lines 111-240), given the detection
list the external detector returned for the current frame.  Canvas
drawing is omitted; status messages are the source literals. -/
def captureFace (s : ComponentState) (detections : List Detection) :
    ComponentState :=
  if !s.videoPresent || !s.modelsLoaded then s
  else
    match detections with
    | [] =>
        { s with statusMessage :=
            "No face detected! Please position yourself properly and try again" }
    | [detection] =>
        let isLooking := checkIfLookingAtScreen detection.landmarks
        if !isLooking then
          { s with
              isLookingAtScreen := isLooking
              statusMessage :=
                "Please look directly at the screen before capturing your face." }
        else
          { s with
              isLookingAtScreen := isLooking
              initialFace := some ⟨detection.descriptor, detection⟩
              statusMessage :=
                "Face captured successfully! Now try the verification." }
    | _ =>
        { s with
            multipleFacesDetected := true
            statusMessage :=
              "Multiple faces detected! Please ensure only your face is in the frame." }

/-- The verifyFace action (source lines 242-405), given the detection
list the external detector returned for the current frame.  The single
source guard on videoRef.current, initialFace and modelsLoaded is split
into the initialFace match and the flag test; all three disjuncts reach
the same early return. -/
noncomputable def verifyFace (s : ComponentState) (detections : List Detection) :
    ComponentState :=
  match s.initialFace with
  | none => { s with statusMessage := "Please capture your initial face first" }
  | some face =>
    if !s.videoPresent || !s.modelsLoaded then
      { s with statusMessage := "Please capture your initial face first" }
    else
      match detections with
      | [] =>
          { s with
              verificationResult := some
                { isMatch := false
                  message := "No face detected for verification." }
              statusMessage := "Verification failed: No face detected." }
      | [detection] =>
          let isLooking := checkIfLookingAtScreen detection.landmarks
          if !isLooking then
            { s with
                isLookingAtScreen := isLooking
                verificationResult := some
                  { isMatch := false
                    message := "Please look directly at the screen for verification." }
                statusMessage := "Verification failed: Not looking at screen." }
          else
            let result := comparisonResult face.descriptor detection.descriptor
            { s with
                isLookingAtScreen := isLooking
                verificationResult := some result
                statusMessage :=
                  "Verification complete: " ++
                    (if result.isMatch then "Match confirmed!"
                     else "Different person detected.") }
      | _ =>
          { s with
              multipleFacesDetected := true
              verificationResult := some
                { isMatch := false
                  message :=
                    "Multiple faces detected. Please ensure only your face is in the frame." }
              statusMessage := "Verification failed: Multiple faces detected." }

/-- Six copies of a point, a concrete eye landmark group. -/
def sixAt (p : Point2D) : List Point2D := [p, p, p, p, p, p]

/-- Nine copies of a point, a concrete nose landmark group. -/
def nineAt (p : Point2D) : List Point2D := [p, p, p, p, p, p, p, p, p]

/-- A frontal landmark set: level eyes spanning x 0 to 10, nose tip at
the midpoint. -/
def frontalLandmarks : FaceLandmarks68 :=
  ⟨nineAt ⟨5, 0⟩, sixAt ⟨0, 0⟩, sixAt ⟨10, 0⟩⟩

/-- A non-frontal landmark set: the nose tip far off the eye midpoint. -/
def awayLandmarks : FaceLandmarks68 :=
  ⟨nineAt ⟨100, 0⟩, sixAt ⟨0, 0⟩, sixAt ⟨10, 0⟩⟩

/-- A degenerate landmark set with every point at the origin: both eye
centroids coincide, so the eye x-span is zero. -/
def degenerateLandmarks : FaceLandmarks68 :=
  ⟨nineAt ⟨0, 0⟩, sixAt ⟨0, 0⟩, sixAt ⟨0, 0⟩⟩

/-- A fresh component state: models loaded, webcam active, nothing
enrolled, no verdict. -/
def baseState : ComponentState := ⟨true, true, none, none, "", false, true⟩

/-- A state enrolled with the given descriptor, captured from a frontal
detection. -/
def enrolledState (q : List ℚ) : ComponentState :=
  { baseState with initialFace := some ⟨q, ⟨frontalLandmarks, q⟩⟩ }

/-- A frontal probe detection with the given descriptor. -/
def probeD (q : List ℚ) : Detection := ⟨frontalLandmarks, q⟩

/-- A non-frontal probe detection. -/
def awayD : Detection := ⟨awayLandmarks, [0]⟩

lemma ltBool_eq_true_iff (x y : ℝ) : ltBool x y = true ↔ x < y := by
  simp [ltBool]

lemma ltBool_eq_false_iff (x y : ℝ) : ltBool x y = false ↔ ¬ x < y := by
  simp [ltBool]

lemma euclideanDistance_eq_of_sq (a b : List ℚ) (c : ℝ) (hc : 0 ≤ c)
    (h : ((sumSqDiff a b : ℚ) : ℝ) = c ^ 2) : euclideanDistance a b = c := by
  unfold euclideanDistance
  rw [h, Real.sqrt_sq hc]

lemma sumSqDiff_self (a : List ℚ) : sumSqDiff a a = 0 := by
  induction a with
  | nil => simp [sumSqDiff]
  | cons x xs ih =>
      simp [sumSqDiff] at ih ⊢
      exact ih

lemma euclideanDistance_self (a : List ℚ) : euclideanDistance a a = 0 := by
  unfold euclideanDistance
  rw [sumSqDiff_self]
  simp

lemma comparisonResult_isMatch (a b : List ℚ) :
    (comparisonResult a b).isMatch = ltBool (euclideanDistance a b) threshold := rfl

lemma comparisonResult_distance (a b : List ℚ) :
    (comparisonResult a b).distance = some (euclideanDistance a b) := rfl

lemma comparisonResult_confidence (a b : List ℚ) :
    (comparisonResult a b).confidence =
      some (round ((1 - euclideanDistance a b) * 100)) := rfl

lemma verifyFace_notEnrolled (s : ComponentState) (ds : List Detection)
    (h : s.initialFace = none) :
    verifyFace s ds =
      { s with statusMessage := "Please capture your initial face first" } := by
  unfold verifyFace
  rw [h]

lemma verifyFace_notReady (s : ComponentState) (f : FaceData) (ds : List Detection)
    (hf : s.initialFace = some f) (h : (!s.videoPresent || !s.modelsLoaded) = true) :
    verifyFace s ds =
      { s with statusMessage := "Please capture your initial face first" } := by
  unfold verifyFace
  rw [hf]
  simp only [h, if_true]

lemma verifyFace_empty (s : ComponentState) (f : FaceData)
    (hf : s.initialFace = some f) (hv : s.videoPresent = true)
    (hm : s.modelsLoaded = true) :
    verifyFace s [] =
      { s with
          verificationResult := some
            { isMatch := false, message := "No face detected for verification." }
          statusMessage := "Verification failed: No face detected." } := by
  unfold verifyFace
  rw [hf]
  simp [hv, hm]

lemma verifyFace_multiple (s : ComponentState) (f : FaceData)
    (d1 d2 : Detection) (rest : List Detection)
    (hf : s.initialFace = some f) (hv : s.videoPresent = true)
    (hm : s.modelsLoaded = true) :
    verifyFace s (d1 :: d2 :: rest) =
      { s with
          multipleFacesDetected := true
          verificationResult := some
            { isMatch := false
              message := "Multiple faces detected. Please ensure only your face is in the frame." }
          statusMessage := "Verification failed: Multiple faces detected." } := by
  unfold verifyFace
  rw [hf]
  simp [hv, hm]

lemma verifyFace_notLooking (s : ComponentState) (f : FaceData) (d : Detection)
    (hf : s.initialFace = some f) (hv : s.videoPresent = true)
    (hm : s.modelsLoaded = true) (hl : checkIfLookingAtScreen d.landmarks = false) :
    verifyFace s [d] =
      { s with
          isLookingAtScreen := false
          verificationResult := some
            { isMatch := false
              message := "Please look directly at the screen for verification." }
          statusMessage := "Verification failed: Not looking at screen." } := by
  unfold verifyFace
  rw [hf]
  simp [hv, hm, hl]

lemma verifyFace_looking (s : ComponentState) (f : FaceData) (d : Detection)
    (hf : s.initialFace = some f) (hv : s.videoPresent = true)
    (hm : s.modelsLoaded = true) (hl : checkIfLookingAtScreen d.landmarks = true) :
    verifyFace s [d] =
      { s with
          isLookingAtScreen := true
          verificationResult := some (comparisonResult f.descriptor d.descriptor)
          statusMessage :=
            "Verification complete: " ++
              (if (comparisonResult f.descriptor d.descriptor).isMatch then
                "Match confirmed!"
               else "Different person detected.") } := by
  unfold verifyFace
  rw [hf]
  simp [hv, hm, hl]

lemma captureFace_empty (s : ComponentState) (hv : s.videoPresent = true)
    (hm : s.modelsLoaded = true) :
    captureFace s [] =
      { s with statusMessage :=
          "No face detected! Please position yourself properly and try again" } := by
  unfold captureFace
  simp [hv, hm]

lemma captureFace_multiple (s : ComponentState) (d1 d2 : Detection)
    (rest : List Detection) (hv : s.videoPresent = true) (hm : s.modelsLoaded = true) :
    captureFace s (d1 :: d2 :: rest) =
      { s with
          multipleFacesDetected := true
          statusMessage :=
            "Multiple faces detected! Please ensure only your face is in the frame." } := by
  unfold captureFace
  simp [hv, hm]

lemma captureFace_notLooking (s : ComponentState) (d : Detection)
    (hv : s.videoPresent = true) (hm : s.modelsLoaded = true)
    (hl : checkIfLookingAtScreen d.landmarks = false) :
    captureFace s [d] =
      { s with
          isLookingAtScreen := false
          statusMessage :=
            "Please look directly at the screen before capturing your face." } := by
  unfold captureFace
  simp [hv, hm, hl]

lemma captureFace_looking (s : ComponentState) (d : Detection)
    (hv : s.videoPresent = true) (hm : s.modelsLoaded = true)
    (hl : checkIfLookingAtScreen d.landmarks = true) :
    captureFace s [d] =
      { s with
          isLookingAtScreen := true
          initialFace := some ⟨d.descriptor, d⟩
          statusMessage := "Face captured successfully! Now try the verification." } := by
  unfold captureFace
  simp [hv, hm, hl]

lemma frontal_looking : checkIfLookingAtScreen frontalLandmarks = true := by
  simp [checkIfLookingAtScreen, FaceLandmarks68.getNose, FaceLandmarks68.getLeftEye,
    FaceLandmarks68.getRightEye, getCenterPoint, frontalLandmarks, sixAt, nineAt]
  norm_num

lemma away_notLooking : checkIfLookingAtScreen awayLandmarks = false := by
  simp [checkIfLookingAtScreen, FaceLandmarks68.getNose, FaceLandmarks68.getLeftEye,
    FaceLandmarks68.getRightEye, getCenterPoint, awayLandmarks, sixAt, nineAt]
  norm_num

lemma dist_35_0 : euclideanDistance [(3 : ℚ)/5] [0] = 0.6 := by
  apply euclideanDistance_eq_of_sq _ _ _ (by norm_num)
  rw [show sumSqDiff [(3 : ℚ)/5] [0] = 9/25 by norm_num [sumSqDiff]]
  norm_num

lemma dist_1310_0 : euclideanDistance [(13 : ℚ)/10] [0] = 1.3 := by
  apply euclideanDistance_eq_of_sq _ _ _ (by norm_num)
  rw [show sumSqDiff [(13 : ℚ)/10] [0] = 169/100 by norm_num [sumSqDiff]]
  norm_num

/-- Claim C1: for every enrolled reference descriptor and every verify
action whose frame has exactly one detection passing the gaze check, the
verdict field isMatch holds exactly when the euclidean distance between
the enrolled and probe descriptors is strictly below 0.6, and a distance
of exactly 0.6 yields isMatch = false. -/
theorem spec_C1 (s : ComponentState) (f : FaceData) (d : Detection)
    (hf : s.initialFace = some f) (hv : s.videoPresent = true)
    (hm : s.modelsLoaded = true) (hl : checkIfLookingAtScreen d.landmarks = true) :
    ∃ r, (verifyFace s [d]).verificationResult = some r ∧
      (r.isMatch = true ↔ euclideanDistance f.descriptor d.descriptor < 0.6) ∧
      (euclideanDistance f.descriptor d.descriptor = 0.6 → r.isMatch = false) := by
  refine ⟨comparisonResult f.descriptor d.descriptor, ?_, ?_, ?_⟩
  · rw [verifyFace_looking s f d hf hv hm hl]
  · rw [comparisonResult_isMatch, ltBool_eq_true_iff, show threshold = (0.6 : ℝ) from rfl]
  · intro h
    rw [comparisonResult_isMatch, ltBool_eq_false_iff, h,
      show threshold = (0.6 : ℝ) from rfl]
    exact lt_irrefl _

/-- Witness for spec_C1: enrolling the descriptor 3/5 and probing with
the zero descriptor gives distance exactly 0.6, and the produced verdict
has isMatch = false, confirming the strict boundary. -/
theorem spec_C1_witness :
    euclideanDistance [(3 : ℚ)/5] [0] = 0.6 ∧
    checkIfLookingAtScreen (probeD [0]).landmarks = true ∧
    ∃ r, (verifyFace (enrolledState [(3 : ℚ)/5]) [probeD [0]]).verificationResult =
        some r ∧ r.isMatch = false := by
  obtain ⟨r, hr, _, hb⟩ := spec_C1 (enrolledState [(3 : ℚ)/5])
    ⟨[(3 : ℚ)/5], ⟨frontalLandmarks, [(3 : ℚ)/5]⟩⟩ (probeD [0]) rfl rfl rfl
    frontal_looking
  exact ⟨dist_35_0, frontal_looking, r, hr, hb dist_35_0⟩

/-- Claim C2: every successful verify computation reports confidence
round of (1 - distance) * 100 with no clamping; identical descriptors
give distance 0, isMatch = true and confidence 100, and distance 1.3
gives the unclamped negative confidence -30. -/
theorem spec_C2 (s : ComponentState) (f : FaceData) (d : Detection)
    (hf : s.initialFace = some f) (hv : s.videoPresent = true)
    (hm : s.modelsLoaded = true) (hl : checkIfLookingAtScreen d.landmarks = true) :
    ∃ r, (verifyFace s [d]).verificationResult = some r ∧
      r.confidence = some (round ((1 - euclideanDistance f.descriptor d.descriptor) * 100)) ∧
      (f.descriptor = d.descriptor →
        euclideanDistance f.descriptor d.descriptor = 0 ∧
        r.isMatch = true ∧ r.confidence = some 100) ∧
      (euclideanDistance f.descriptor d.descriptor = 1.3 → r.confidence = some (-30)) := by
  refine ⟨comparisonResult f.descriptor d.descriptor, ?_,
    comparisonResult_confidence _ _, ?_, ?_⟩
  · rw [verifyFace_looking s f d hf hv hm hl]
  · intro hid
    have h0 : euclideanDistance f.descriptor d.descriptor = 0 := by
      rw [hid, euclideanDistance_self]
    refine ⟨h0, ?_, ?_⟩
    · rw [comparisonResult_isMatch, ltBool_eq_true_iff, h0]
      norm_num [threshold]
    · rw [comparisonResult_confidence, h0,
        show ((1 : ℝ) - 0) * 100 = ((100 : ℤ) : ℝ) by norm_num, round_intCast]
  · intro h13
    rw [comparisonResult_confidence, h13,
      show ((1 : ℝ) - 1.3) * 100 = ((-30 : ℤ) : ℝ) by norm_num, round_intCast]

/-- Witness for spec_C2: identical descriptors 1/2 give a matching
verdict with confidence 100, and enrolled descriptor 13/10 against the
zero probe gives distance 1.3 and confidence -30. -/
theorem spec_C2_witness :
    (∃ r, (verifyFace (enrolledState [(1 : ℚ)/2]) [probeD [(1 : ℚ)/2]]).verificationResult =
        some r ∧ r.isMatch = true ∧ r.confidence = some 100) ∧
    (∃ r, (verifyFace (enrolledState [(13 : ℚ)/10]) [probeD [0]]).verificationResult =
        some r ∧ r.confidence = some (-30)) := by
  obtain ⟨r1, hr1, _, hid, _⟩ := spec_C2 (enrolledState [(1 : ℚ)/2])
    ⟨[(1 : ℚ)/2], ⟨frontalLandmarks, [(1 : ℚ)/2]⟩⟩ (probeD [(1 : ℚ)/2]) rfl rfl rfl
    frontal_looking
  obtain ⟨_, hm1, hc1⟩ := hid rfl
  obtain ⟨r2, hr2, _, _, h13⟩ := spec_C2 (enrolledState [(13 : ℚ)/10])
    ⟨[(13 : ℚ)/10], ⟨frontalLandmarks, [(13 : ℚ)/10]⟩⟩ (probeD [0]) rfl rfl rfl
    frontal_looking
  exact ⟨⟨r1, hr1, hm1, hc1⟩, ⟨r2, hr2, h13 dist_1310_0⟩⟩

/-- Claim C3: a capture action with an empty detection list fails with
the no-face message, with two or more detections fails with the
multiple-faces message, and with a single non-frontal detection fails
with the not-facing message, each leaving the enrolled reference
unchanged; with a single frontal detection it stores that descriptor as
the enrolled face and isEnrolled is subsequently true. -/
theorem spec_C3 (s : ComponentState) (hv : s.videoPresent = true)
    (hm : s.modelsLoaded = true) :
    ((captureFace s []).initialFace = s.initialFace ∧
      (captureFace s []).statusMessage =
        "No face detected! Please position yourself properly and try again") ∧
    (∀ d1 d2 rest, (captureFace s (d1 :: d2 :: rest)).initialFace = s.initialFace ∧
      (captureFace s (d1 :: d2 :: rest)).statusMessage =
        "Multiple faces detected! Please ensure only your face is in the frame.") ∧
    (∀ d, checkIfLookingAtScreen d.landmarks = false →
      (captureFace s [d]).initialFace = s.initialFace ∧
      (captureFace s [d]).statusMessage =
        "Please look directly at the screen before capturing your face.") ∧
    (∀ d, checkIfLookingAtScreen d.landmarks = true →
      (captureFace s [d]).initialFace = some ⟨d.descriptor, d⟩ ∧
      (captureFace s [d]).isEnrolled = true ∧
      (captureFace s [d]).statusMessage =
        "Face captured successfully! Now try the verification.") := by
  refine ⟨?_, ?_, ?_, ?_⟩
  · rw [captureFace_empty s hv hm]
    exact ⟨rfl, rfl⟩
  · intro d1 d2 rest
    rw [captureFace_multiple s d1 d2 rest hv hm]
    exact ⟨rfl, rfl⟩
  · intro d hl
    rw [captureFace_notLooking s d hv hm hl]
    exact ⟨rfl, rfl⟩
  · intro d hl
    rw [captureFace_looking s d hv hm hl]
    exact ⟨rfl, rfl, rfl⟩

/-- Witness for spec_C3: from the fresh state, empty, double and
non-frontal captures leave nothing enrolled, while a frontal capture
enrolls its descriptor and isEnrolled becomes true. -/
theorem spec_C3_witness :
    (captureFace baseState []).initialFace = none ∧
    (captureFace baseState [probeD [1], probeD [2]]).initialFace = none ∧
    checkIfLookingAtScreen awayD.landmarks = false ∧
    (captureFace baseState [awayD]).initialFace = none ∧
    (captureFace baseState [probeD [1]]).initialFace = some ⟨[1], probeD [1]⟩ ∧
    (captureFace baseState [probeD [1]]).isEnrolled = true := by
  obtain ⟨h1, h2, h3, h4⟩ := spec_C3 baseState rfl rfl
  obtain ⟨hc1, hc2, _⟩ := h4 (probeD [1]) frontal_looking
  exact ⟨h1.1, (h2 (probeD [1]) (probeD [2]) []).1, away_notLooking,
    (h3 awayD away_notLooking).1, hc1, hc2⟩

/-- Claim C4: a verify action in the enrolled state whose frame is empty
or ambiguous, or whose single detection fails the gaze check, returns a
verdict object with isMatch = false and a cause-specific message instead
of propagating an error, so the caller always has a renderable result. -/
theorem spec_C4 (s : ComponentState) (f : FaceData)
    (hf : s.initialFace = some f) (hv : s.videoPresent = true)
    (hm : s.modelsLoaded = true) :
    (∃ r, (verifyFace s []).verificationResult = some r ∧ r.isMatch = false ∧
      r.message = "No face detected for verification.") ∧
    (∀ d1 d2 rest, ∃ r,
      (verifyFace s (d1 :: d2 :: rest)).verificationResult = some r ∧ r.isMatch = false ∧
      r.message = "Multiple faces detected. Please ensure only your face is in the frame.") ∧
    (∀ d, checkIfLookingAtScreen d.landmarks = false →
      ∃ r, (verifyFace s [d]).verificationResult = some r ∧ r.isMatch = false ∧
        r.message = "Please look directly at the screen for verification.") := by
  refine ⟨?_, ?_, ?_⟩
  · rw [verifyFace_empty s f hf hv hm]
    exact ⟨_, rfl, rfl, rfl⟩
  · intro d1 d2 rest
    rw [verifyFace_multiple s f d1 d2 rest hf hv hm]
    exact ⟨_, rfl, rfl, rfl⟩
  · intro d hl
    rw [verifyFace_notLooking s f d hf hv hm hl]
    exact ⟨_, rfl, rfl, rfl⟩

/-- Witness for spec_C4: in an enrolled state, the empty frame, a
two-face frame and a non-frontal frame each produce a failed verdict
with the corresponding message. -/
theorem spec_C4_witness :
    (∃ r, (verifyFace (enrolledState [0]) []).verificationResult = some r ∧
      r.isMatch = false ∧ r.message = "No face detected for verification.") ∧
    (∃ r, (verifyFace (enrolledState [0]) [probeD [1], probeD [2]]).verificationResult =
        some r ∧ r.isMatch = false ∧
      r.message = "Multiple faces detected. Please ensure only your face is in the frame.") ∧
    (∃ r, (verifyFace (enrolledState [0]) [awayD]).verificationResult = some r ∧
      r.isMatch = false ∧
      r.message = "Please look directly at the screen for verification.") := by
  obtain ⟨hA, hB, hC⟩ := spec_C4 (enrolledState [0]) ⟨[0], ⟨frontalLandmarks, [0]⟩⟩
    rfl rfl rfl
  exact ⟨hA, hB (probeD [1]) (probeD [2]) [], hC awayD away_notLooking⟩

/-- Claim C5: a verify action while nothing is enrolled short-circuits
on the precondition: the whole state is unchanged except for the
please-capture-first status text, so no verdict is produced and the
enrolled reference stays absent. -/
theorem spec_C5 (s : ComponentState) (ds : List Detection)
    (h : s.initialFace = none) :
    verifyFace s ds = { s with statusMessage := "Please capture your initial face first" } ∧
    (verifyFace s ds).verificationResult = s.verificationResult ∧
    (verifyFace s ds).initialFace = none := by
  have he := verifyFace_notEnrolled s ds h
  refine ⟨he, ?_, ?_⟩
  · rw [he]
  · rw [he]
    exact h

/-- Witness for spec_C5: verifying from the fresh unenrolled state only
rewrites the status message and produces no verdict. -/
theorem spec_C5_witness :
    verifyFace baseState [] =
      { baseState with statusMessage := "Please capture your initial face first" } ∧
    (verifyFace baseState []).verificationResult = none ∧
    (verifyFace baseState []).initialFace = none :=
  spec_C5 baseState [] rfl

/-- Claim C6: after enrolling descriptor A and then descriptor B, the
stored reference is exactly B (A is discarded, not merged), a subsequent
verify leaves the enrollment unchanged, and its verdict distance is
computed against B only. -/
theorem spec_C6 (s : ComponentState) (dA dB dP : Detection)
    (hv : s.videoPresent = true) (hm : s.modelsLoaded = true)
    (hA : checkIfLookingAtScreen dA.landmarks = true)
    (hB : checkIfLookingAtScreen dB.landmarks = true)
    (hP : checkIfLookingAtScreen dP.landmarks = true) :
    (captureFace (captureFace s [dA]) [dB]).initialFace = some ⟨dB.descriptor, dB⟩ ∧
    (verifyFace (captureFace (captureFace s [dA]) [dB]) [dP]).initialFace =
      (captureFace (captureFace s [dA]) [dB]).initialFace ∧
    ∃ r, (verifyFace (captureFace (captureFace s [dA]) [dB]) [dP]).verificationResult =
        some r ∧
      r.distance = some (euclideanDistance dB.descriptor dP.descriptor) := by
  have h1 := captureFace_looking s dA hv hm hA
  have hv1 : (captureFace s [dA]).videoPresent = true := by rw [h1]; exact hv
  have hm1 : (captureFace s [dA]).modelsLoaded = true := by rw [h1]; exact hm
  have h2 := captureFace_looking (captureFace s [dA]) dB hv1 hm1 hB
  have hface : (captureFace (captureFace s [dA]) [dB]).initialFace =
      some ⟨dB.descriptor, dB⟩ := by rw [h2]
  have hv2 : (captureFace (captureFace s [dA]) [dB]).videoPresent = true := by
    rw [h2]; exact hv1
  have hm2 : (captureFace (captureFace s [dA]) [dB]).modelsLoaded = true := by
    rw [h2]; exact hm1
  have h3 := verifyFace_looking (captureFace (captureFace s [dA]) [dB])
    ⟨dB.descriptor, dB⟩ dP hface hv2 hm2 hP
  refine ⟨hface, ?_, comparisonResult dB.descriptor dP.descriptor, ?_, ?_⟩
  · rw [h3]
  · rw [h3]
  · exact comparisonResult_distance _ _

/-- Witness for spec_C6: enrolling descriptors 1 then 2 and probing with
3 leaves descriptor 2 enrolled and compares the probe against 2. -/
theorem spec_C6_witness :
    (captureFace (captureFace baseState [probeD [1]]) [probeD [2]]).initialFace =
      some ⟨[2], probeD [2]⟩ ∧
    ∃ r, (verifyFace (captureFace (captureFace baseState [probeD [1]]) [probeD [2]])
        [probeD [3]]).verificationResult = some r ∧
      r.distance = some (euclideanDistance [2] [3]) := by
  obtain ⟨h1, _, h3⟩ := spec_C6 baseState (probeD [1]) (probeD [2]) (probeD [3])
    rfl rfl frontal_looking frontal_looking frontal_looking
  exact ⟨h1, h3⟩

/-- Claim C7: whenever the two eye centroids share the same x
coordinate, so the eye x-span is zero, the gaze check returns false; the
embedding realizes it as a total pure function on landmark sets, with no
exception path and no state access. -/
theorem spec_C7 (lm : FaceLandmarks68)
    (h : (getCenterPoint lm.rightEye).x = (getCenterPoint lm.leftEye).x) :
    checkIfLookingAtScreen lm = false := by
  have hlevel : ¬ (|(getCenterPoint lm.rightEye).y - (getCenterPoint lm.leftEye).y| <
      |(getCenterPoint lm.rightEye).x - (getCenterPoint lm.leftEye).x| * 0.3) := by
    rw [h, sub_self, abs_zero, zero_mul]
    exact not_lt.mpr (abs_nonneg _)
  simp [checkIfLookingAtScreen, FaceLandmarks68.getNose, FaceLandmarks68.getLeftEye,
    FaceLandmarks68.getRightEye, hlevel]

/-- Witness for spec_C7: the all-origin landmark set has coinciding eye
centroids and the gaze check evaluates to false on it. -/
theorem spec_C7_witness :
    (getCenterPoint degenerateLandmarks.rightEye).x =
      (getCenterPoint degenerateLandmarks.leftEye).x ∧
    checkIfLookingAtScreen degenerateLandmarks = false :=
  ⟨rfl, spec_C7 degenerateLandmarks rfl⟩

/-- Claim C8 counterexample: the all-origin landmark set has level eyes
(eye y-difference 0) and a perfectly centered nose (nose offset 0), yet
the gaze check returns false, because the eye x-span is also zero and
both strict comparisons fail. -/
theorem spec_C8_counterexample :
    |(getCenterPoint degenerateLandmarks.rightEye).y -
        (getCenterPoint degenerateLandmarks.leftEye).y| = 0 ∧
    |(degenerateLandmarks.nose.getD 3 ⟨0, 0⟩).x -
        ((getCenterPoint degenerateLandmarks.leftEye).x +
          (getCenterPoint degenerateLandmarks.rightEye).x) / 2| = 0 ∧
    checkIfLookingAtScreen degenerateLandmarks = false := by
  refine ⟨?_, ?_, ?_⟩ <;>
    simp [degenerateLandmarks, getCenterPoint, checkIfLookingAtScreen,
      FaceLandmarks68.getNose, FaceLandmarks68.getLeftEye, FaceLandmarks68.getRightEye,
      sixAt, nineAt, List.getD]

/-- Claim C8 as amended: for every well formed landmark set whose eye
centroids are at equal height, whose nose tip sits exactly at the
midpoint of the eye centroid x coordinates, and whose eye centroids
differ in x (nonzero eye span), the gaze check returns true. -/
theorem spec_C8 (lm : FaceLandmarks68) (_hwf : WellFormed lm)
    (hy : (getCenterPoint lm.rightEye).y = (getCenterPoint lm.leftEye).y)
    (hnose : (lm.nose.getD 3 ⟨0, 0⟩).x =
      ((getCenterPoint lm.leftEye).x + (getCenterPoint lm.rightEye).x) / 2)
    (hx : (getCenterPoint lm.rightEye).x ≠ (getCenterPoint lm.leftEye).x) :
    checkIfLookingAtScreen lm = true := by
  have hpos : 0 < |(getCenterPoint lm.rightEye).x - (getCenterPoint lm.leftEye).x| :=
    abs_pos.mpr (sub_ne_zero_of_ne hx)
  have hlevel : |(getCenterPoint lm.rightEye).y - (getCenterPoint lm.leftEye).y| <
      |(getCenterPoint lm.rightEye).x - (getCenterPoint lm.leftEye).x| * 0.3 := by
    rw [hy, sub_self, abs_zero]
    exact mul_pos hpos (by norm_num)
  have hcentered : |(lm.nose.getD 3 ⟨0, 0⟩).x -
      ((getCenterPoint lm.leftEye).x + (getCenterPoint lm.rightEye).x) / 2| <
      |(getCenterPoint lm.rightEye).x - (getCenterPoint lm.leftEye).x| * 0.4 := by
    rw [hnose, sub_self, abs_zero]
    exact mul_pos hpos (by norm_num)
  simp only [checkIfLookingAtScreen, FaceLandmarks68.getNose, FaceLandmarks68.getLeftEye,
    FaceLandmarks68.getRightEye, Bool.and_eq_true, decide_eq_true_eq]
  exact ⟨hlevel, hcentered⟩

/-- Witness for spec_C8: the frontal fixture is well formed, has level
eye centroids at x 0 and 10, nose tip at the midpoint x 5, and the gaze
check accepts it. -/
theorem spec_C8_witness :
    WellFormed frontalLandmarks ∧
    (getCenterPoint frontalLandmarks.rightEye).y =
      (getCenterPoint frontalLandmarks.leftEye).y ∧
    (frontalLandmarks.nose.getD 3 ⟨0, 0⟩).x =
      ((getCenterPoint frontalLandmarks.leftEye).x +
        (getCenterPoint frontalLandmarks.rightEye).x) / 2 ∧
    (getCenterPoint frontalLandmarks.rightEye).x ≠
      (getCenterPoint frontalLandmarks.leftEye).x ∧
    checkIfLookingAtScreen frontalLandmarks = true := by
  have hwf : WellFormed frontalLandmarks := ⟨rfl, rfl, rfl⟩
  have hy : (getCenterPoint frontalLandmarks.rightEye).y =
      (getCenterPoint frontalLandmarks.leftEye).y := by
    norm_num [frontalLandmarks, getCenterPoint, sixAt]
  have hnose : (frontalLandmarks.nose.getD 3 ⟨0, 0⟩).x =
      ((getCenterPoint frontalLandmarks.leftEye).x +
        (getCenterPoint frontalLandmarks.rightEye).x) / 2 := by
    norm_num [frontalLandmarks, getCenterPoint, sixAt, nineAt, List.getD]
  have hx : (getCenterPoint frontalLandmarks.rightEye).x ≠
      (getCenterPoint frontalLandmarks.leftEye).x := by
    norm_num [frontalLandmarks, getCenterPoint, sixAt]
  exact ⟨hwf, hy, hnose, hx, spec_C8 frontalLandmarks hwf hy hnose hx⟩

/-- Claim C9 counterexample: in an enrolled state with no prior verdict,
a verify action on an empty frame (classification Empty, zero
detections) still produces a VerificationVerdict, contradicting the
claim that a verdict is produced only when the frame is usable and the
gaze check passes. -/
theorem spec_C9_counterexample :
    (enrolledState [0]).verificationResult = none ∧
    ([] : List Detection).length = 0 ∧
    (verifyFace (enrolledState [0]) []).verificationResult =
      some { isMatch := false, message := "No face detected for verification." } :=
  ⟨rfl, rfl, rfl⟩

/-- Claim C9 as amended: a verification verdict is produced only by the
verify action and only when an enrolled face exists (capture never
writes one, unenrolled verify never writes one), and a verdict carrying
a distance is produced only when the frame has exactly one detection
that passes the gaze check, with the distance computed against the
enrolled descriptor. -/
theorem spec_C9 :
    (∀ s ds, (captureFace s ds).verificationResult = s.verificationResult) ∧
    (∀ s ds, s.initialFace = none →
      (verifyFace s ds).verificationResult = s.verificationResult) ∧
    (∀ s ds r, (verifyFace s ds).verificationResult = some r →
      s.verificationResult ≠ some r → r.distance.isSome = true →
      ∃ f d, s.initialFace = some f ∧ ds = [d] ∧
        checkIfLookingAtScreen d.landmarks = true ∧
        r.distance = some (euclideanDistance f.descriptor d.descriptor)) := by
  refine ⟨?_, ?_, ?_⟩
  · intro s ds
    unfold captureFace
    split
    · rfl
    · split
      · rfl
      · dsimp only
        split <;> rfl
      · rfl
  · intro s ds h
    rw [verifyFace_notEnrolled s ds h]
  · intro s ds r hr hne hsome
    cases hfs : s.initialFace with
    | none =>
        exfalso
        apply hne
        rw [← hr, verifyFace_notEnrolled s ds hfs]
    | some f =>
        by_cases hv : s.videoPresent = true
        · by_cases hm : s.modelsLoaded = true
          · match ds with
            | [] =>
                rw [verifyFace_empty s f hfs hv hm] at hr
                exfalso
                obtain rfl := Option.some.inj hr.symm
                simp at hsome
            | [d] =>
                by_cases hl : checkIfLookingAtScreen d.landmarks = true
                · rw [verifyFace_looking s f d hfs hv hm hl] at hr
                  obtain rfl := Option.some.inj hr.symm
                  exact ⟨f, d, rfl, rfl, hl, comparisonResult_distance _ _⟩
                · rw [verifyFace_notLooking s f d hfs hv hm
                    (Bool.not_eq_true _ ▸ hl)] at hr
                  exfalso
                  obtain rfl := Option.some.inj hr.symm
                  simp at hsome
            | d1 :: d2 :: rest =>
                rw [verifyFace_multiple s f d1 d2 rest hfs hv hm] at hr
                exfalso
                obtain rfl := Option.some.inj hr.symm
                simp at hsome
          · exfalso
            apply hne
            rw [← hr, verifyFace_notReady s f ds hfs]
            simp [Bool.not_eq_true _ ▸ hm]
        · exfalso
          apply hne
          rw [← hr, verifyFace_notReady s f ds hfs]
          simp [Bool.not_eq_true _ ▸ hv]

/-- Witness for spec_C9: capture writes no verdict, unenrolled verify
writes no verdict, and the distance-carrying verdict of a frontal
single-detection verify is traced back to the enrolled descriptor. -/
theorem spec_C9_witness :
    (captureFace baseState [probeD [1]]).verificationResult = none ∧
    (verifyFace baseState []).verificationResult = none ∧
    (∃ f d, (enrolledState [0]).initialFace = some f ∧
      ([probeD [0]] : List Detection) = [d] ∧
      checkIfLookingAtScreen d.landmarks = true ∧
      (comparisonResult [0] [0]).distance =
        some (euclideanDistance f.descriptor d.descriptor)) := by
  have hr : (verifyFace (enrolledState [0]) [probeD [0]]).verificationResult =
      some (comparisonResult [0] [0]) := by
    rw [verifyFace_looking (enrolledState [0]) ⟨[0], ⟨frontalLandmarks, [0]⟩⟩ (probeD [0])
      rfl rfl rfl frontal_looking]
    rfl
  exact ⟨spec_C9.1 baseState [probeD [1]], spec_C9.2.1 baseState [] rfl,
    spec_C9.2.2 (enrolledState [0]) [probeD [0]] (comparisonResult [0] [0]) hr
      (fun h => Option.noConfusion h) rfl⟩

/-- Claim C10: every verdict produced for a capture-condition failure
carries isMatch = false with absent distance and confidence fields,
while every completed-comparison verdict carries both a distance and a
confidence. -/
theorem spec_C10 (s : ComponentState) (f : FaceData)
    (hf : s.initialFace = some f) (hv : s.videoPresent = true)
    (hm : s.modelsLoaded = true) :
    (∃ r, (verifyFace s []).verificationResult = some r ∧
      r.isMatch = false ∧ r.distance = none ∧ r.confidence = none) ∧
    (∀ d1 d2 rest, ∃ r,
      (verifyFace s (d1 :: d2 :: rest)).verificationResult = some r ∧
      r.isMatch = false ∧ r.distance = none ∧ r.confidence = none) ∧
    (∀ d, checkIfLookingAtScreen d.landmarks = false →
      ∃ r, (verifyFace s [d]).verificationResult = some r ∧
        r.isMatch = false ∧ r.distance = none ∧ r.confidence = none) ∧
    (∀ d, checkIfLookingAtScreen d.landmarks = true →
      ∃ r, (verifyFace s [d]).verificationResult = some r ∧
        r.distance = some (euclideanDistance f.descriptor d.descriptor) ∧
        r.confidence = some (round ((1 - euclideanDistance f.descriptor d.descriptor) * 100))) := by
  refine ⟨?_, ?_, ?_, ?_⟩
  · rw [verifyFace_empty s f hf hv hm]
    exact ⟨_, rfl, rfl, rfl, rfl⟩
  · intro d1 d2 rest
    rw [verifyFace_multiple s f d1 d2 rest hf hv hm]
    exact ⟨_, rfl, rfl, rfl, rfl⟩
  · intro d hl
    rw [verifyFace_notLooking s f d hf hv hm hl]
    exact ⟨_, rfl, rfl, rfl, rfl⟩
  · intro d hl
    rw [verifyFace_looking s f d hf hv hm hl]
    exact ⟨_, rfl, comparisonResult_distance _ _, comparisonResult_confidence _ _⟩

/-- Witness for spec_C10: in an enrolled state, the empty frame and the
non-frontal frame give verdicts without distance or confidence, while
the frontal single-detection frame gives a verdict carrying both. -/
theorem spec_C10_witness :
    (∃ r, (verifyFace (enrolledState [0]) []).verificationResult = some r ∧
      r.isMatch = false ∧ r.distance = none ∧ r.confidence = none) ∧
    (∃ r, (verifyFace (enrolledState [0]) [awayD]).verificationResult = some r ∧
      r.isMatch = false ∧ r.distance = none ∧ r.confidence = none) ∧
    (∃ r, (verifyFace (enrolledState [0]) [probeD [0]]).verificationResult = some r ∧
      r.distance = some (euclideanDistance [0] [0]) ∧
      r.confidence = some (round ((1 - euclideanDistance [0] [0]) * 100))) := by
  obtain ⟨h1, h2, h3, h4⟩ := spec_C10 (enrolledState [0]) ⟨[0], ⟨frontalLandmarks, [0]⟩⟩
    rfl rfl rfl
  exact ⟨h1, h3 awayD away_notLooking, h4 (probeD [0]) frontal_looking⟩
